import Mathlib

/-!
Shallow embedding of the shopify_insights_fetcher normalization and
reconciliation pipeline (app/services/parser.py, app/services/persistence.py,
app/models/schemas.py, app/models/db_models.py), together with proofs about
the claims on its specification.

Python strings are modelled as Lean `String` (ASCII case folding); Python
`None`/missing values as `Option`; Python dicts that are only iterated or
looked up as association lists in insertion order; Python floats are carried
as their source strings because no verified property computes with a price.
-/

namespace ShopifyInsights

/-- Python `str.lower()` (ASCII case folding). -/
def pyLower (s : String) : String :=
  String.mk (s.data.map Char.toLower)

/-- Python `str.strip()` (drop leading and trailing whitespace). -/
def pyStrip (s : String) : String :=
  String.mk (((s.data.dropWhile Char.isWhitespace).reverse.dropWhile Char.isWhitespace).reverse)

/-- Python `str.rstrip("/")` (drop trailing slashes). -/
def rstripSlash (s : String) : String :=
  String.mk ((s.data.reverse.dropWhile (fun c => c = '/')).reverse)

/-- Python truthiness of an optional string: `None` and `""` are falsy. -/
def truthyStr : Option String → Bool
  | none => false
  | some s => s != ""

/-- Python `a or b` for optional strings (first truthy value). -/
def pyOr (a b : Option String) : Option String :=
  if truthyStr a then a else b

/-- `strStartsWith s pre`: Python `s.startswith(pre)`. -/
def strStartsWith (s pre : String) : Bool :=
  pre.data.isPrefixOf s.data

/-- Split a character list at the first occurrence of `sep` (a non-empty
separator): returns the part before and the part after the separator. -/
def breakOnAux (sep : List Char) : List Char → Option (List Char × List Char)
  | [] => none
  | c :: rest =>
    if sep.isPrefixOf (c :: rest) then some ([], (c :: rest).drop sep.length)
    else
      match breakOnAux sep rest with
      | some (pre, post) => some (c :: pre, post)
      | none => none

/-- `strContains s sub`: Python `sub in s` for a non-empty `sub`. -/
def strContains (s sub : String) : Bool :=
  (breakOnAux sub.data s.data).isSome

/-- Everything after the first occurrence of `sep` in `s`, or `none`. -/
def afterFirst (s sep : String) : Option String :=
  (breakOnAux sep.data s.data).map (fun x => String.mk x.2)

/-- Everything before the first occurrence of `sep` in `s`, or all of `s`. -/
def beforeFirst (s sep : String) : String :=
  match breakOnAux sep.data s.data with
  | some (pre, _) => String.mk pre
  | none => s

/-- Join a list of strings with a separator. -/
def joinSep (sep : String) : List String → String
  | [] => ""
  | [x] => x
  | x :: xs => x ++ sep ++ joinSep sep xs

/-- Split a character list on a single character (Python `str.split(c)`). -/
def splitChar (c : Char) : List Char → List (List Char)
  | [] => [[]]
  | x :: rest =>
    let r := splitChar c rest
    if x = c then [] :: r
    else
      match r with
      | h :: t => (x :: h) :: t
      | [] => [[x]]

/-- The `scheme://netloc` prefix of an absolute URL (the URL itself when it
has no `://`, matching how `urljoin` degrades on scheme-less bases). -/
def schemeNetloc (base : String) : String :=
  match breakOnAux "://".data base.data with
  | none => base
  | some (pre, post) => String.mk pre ++ "://" ++ beforeFirst (String.mk post) "/"

/-- `urlparse(href).path`: strip fragment and query, then strip a leading
`scheme://netloc` when present. -/
def urlPath (href : String) : String :=
  let s := beforeFirst href "#"
  let s := beforeFirst s "?"
  match afterFirst s "://" with
  | none => s
  | some rest =>
    match afterFirst rest "/" with
    | none => ""
    | some tailPath => "/" ++ tailPath

/-- `urllib.parse.urljoin` for the shapes this code produces: absolute URLs
pass through, absolute paths are joined onto `scheme://netloc`, and other
relative references replace the last path segment of the base. -/
def urljoin (base url : String) : String :=
  if strStartsWith url "http://" || strStartsWith url "https://" then url
  else if strStartsWith url "/" then schemeNetloc base ++ url
  else if url = "" then base
  else
    match afterFirst base "://" with
    | none => url
    | some rest =>
      match afterFirst rest "/" with
      | none => schemeNetloc base ++ "/" ++ url
      | some pathPart =>
        let segs := (splitChar '/' pathPart.data).map String.mk
        schemeNetloc base ++ "/" ++ joinSep "/" (segs.dropLast ++ [url])

/-- Pydantic `HttpUrl` validity, as far as the verified properties need it:
an `http(s)` scheme followed by a non-empty host. -/
def isHttpUrl (s : String) : Bool :=
  (strStartsWith s "http://" || strStartsWith s "https://") &&
    beforeFirst ((afterFirst s "://").getD "") "/" != ""

/-- Collapse every whitespace run to a single space
(the `re.sub(r"\s+", " ", text)` step of `_strip_html`). -/
def collapseWsAux (prevWs : Bool) : List Char → List Char
  | [] => []
  | c :: rest =>
    if c.isWhitespace then
      if prevWs then collapseWsAux true rest
      else ' ' :: collapseWsAux true rest
    else c :: collapseWsAux false rest

/-- Replace each leftmost match of the regex `<[^>]+>` with a space
(the tag-removal step of `_strip_html`). -/
def stripTagsAux (cs : List Char) : List Char :=
  match cs with
  | [] => []
  | c :: rest =>
    if c = '<' then
      match h : rest.dropWhile (fun x => x ≠ '>') with
      | [] => c :: stripTagsAux rest
      | _ :: a =>
        if rest.takeWhile (fun x => x ≠ '>') = [] then c :: stripTagsAux rest
        else ' ' :: stripTagsAux a
    else c :: stripTagsAux rest
termination_by cs.length
decreasing_by
  · simp
  · simp
  · have hle : ∀ (l : List Char),
        (List.dropWhile (fun x => decide (x ≠ '>')) l).length ≤ l.length := by
      intro l
      induction l with
      | nil => simp [List.dropWhile]
      | cons x xs ih =>
        simp only [List.dropWhile]
        cases decide (x ≠ '>') with
        | true => exact Nat.le_trans ih (Nat.le_succ _)
        | false => exact Nat.le_refl _
    have hr := hle rest
    rw [h] at hr
    simp at hr
    simp
    omega
  · simp

/-- `BrandParser._strip_html` on a truthy input: remove tags, collapse
whitespace, strip. -/
def stripHtml (s : String) : String :=
  pyStrip (String.mk (collapseWsAux false (stripTagsAux s.data)))

/-! ### Enumerations (app/models/db_models.py) -/

inductive PolicyType
  | PRIVACY | REFUND | RETURN | SHIPPING | TERMS
deriving DecidableEq, Repr

inductive ContactType
  | EMAIL | PHONE
deriving DecidableEq, Repr

inductive SocialPlatform
  | INSTAGRAM | FACEBOOK | TIKTOK | TWITTER | YOUTUBE | PINTEREST | LINKEDIN | OTHER
deriving DecidableEq, Repr

inductive LinkType
  | ORDER_TRACKING | CONTACT_US | BLOG | FAQ | ABOUT | HOMEPAGE | OTHER
deriving DecidableEq, Repr

/-! ### Pydantic schemas (app/models/schemas.py) -/

structure Product where
  id : Option Int := none
  title : String
  url : Option String := none
  handle : Option String := none
  price : Option String := none
  currency : Option String := none
  is_hero : Bool := false
  image_url : Option String := none
  vendor : Option String := none
  product_type : Option String := none
  description : Option String := none
deriving DecidableEq, Repr

structure Policy where
  type : PolicyType
  url : Option String := none
  content : Option String := none
deriving DecidableEq, Repr

structure FAQ where
  question : String
  answer : Option String := none
  url : Option String := none
deriving DecidableEq, Repr

structure SocialHandle where
  platform : SocialPlatform
  handle_or_url : String
deriving DecidableEq, Repr

structure ContactDetail where
  type : ContactType
  value : String
deriving DecidableEq, Repr

structure ImportantLink where
  link_type : LinkType
  url : String
  label : Option String := none
deriving DecidableEq, Repr

/-- BrandContext; `scraped_at` is the `datetime.utcnow()` default factory
value, modelled as the clock reading passed to the builder. -/
structure BrandContext where
  brand_id : Option Int := none
  brand_name : Option String := none
  website_url : String
  about : Option String := none
  product_catalog : List Product := []
  hero_products : List Product := []
  policies : List Policy := []
  faqs : List FAQ := []
  social_handles : List SocialHandle := []
  contact_details : List ContactDetail := []
  important_links : List ImportantLink := []
  scraped_at : Nat := 0
deriving DecidableEq, Repr

/-! ### Raw scrape bundle (ShopifyScraper.scrape_all output shape) -/

structure RawVariant where
  price : Option String := none
  currency : Option String := none
deriving DecidableEq, Repr

structure RawImage where
  src : Option String := none
deriving DecidableEq, Repr

structure RawProduct where
  id : Option Int := none
  handle : Option String := none
  title : Option String := none
  vendor : Option String := none
  product_type : Option String := none
  body_html : Option String := none
  variants : List RawVariant := []
  images : List RawImage := []
deriving DecidableEq, Repr

structure RawFAQ where
  question : Option String := none
  answer : Option String := none
deriving DecidableEq, Repr

/-- The dict returned by `ShopifyScraper.scrape_all`; each absent or `None`
collection is already replaced by its empty default, mirroring the
`scrape_bundle.get(key, default) or default` reads in the parser. -/
structure ScrapeBundle where
  products : List RawProduct := []
  privacy_policy : Option String := none
  refund_policy : Option String := none
  faqs : List RawFAQ := []
  social_handles : List (String × String) := []
  contact_details : List (String × String) := []
  about : Option String := none
  links : List String := []
deriving DecidableEq, Repr

/-! ### BrandParser (app/services/parser.py) -/

/-- `BrandParser._normalize_base`. -/
def normalizeBase (base_url : String) : String :=
  rstripSlash (if strStartsWith base_url "http" then base_url else "https://" ++ base_url)

/-- `BrandParser._absolutize`. -/
def absolutize (base_url href : String) : String :=
  if strStartsWith href "http://" || strStartsWith href "https://" then href
  else urljoin base_url href

/-- `BrandParser._product_url`. -/
def productUrl (base_url : String) (handle : Option String) : Option String :=
  if truthyStr handle then some (urljoin base_url ("/products/" ++ handle.getD "")) else none

/-- `BrandParser._canonicalize_product_path`: lowercased, slash-stripped path. -/
def canonicalizeProductPath (href : String) : String :=
  pyLower (rstripSlash (urlPath href))

/-- The set of canonicalized homepage PDP paths precomputed by
`_parse_products`; note the pre-filter `"/products/" in link` is
case-sensitive on the raw link. -/
def homepageProductPaths (links : List String) : List String :=
  (links.filter (fun link => strContains link "/products/")).map canonicalizeProductPath

/-- `BrandParser._extract_price_currency_from_variants`; the Python float
conversion is modelled by keeping the parseable source string. -/
def isDigits (s : String) : Bool :=
  s != "" && s.data.all Char.isDigit

/-- Whether Python `float(s)` succeeds on the common decimal forms
(optional sign, digits, optional dot); exponent and infinity spellings are
not modelled, and no verified claim computes with a price. -/
def isFloatLit (s : String) : Bool :=
  let t := pyStrip s
  let t := if strStartsWith t "+" || strStartsWith t "-" then
    String.mk (t.data.drop 1) else t
  match (splitChar '.' t.data).map String.mk with
  | [a] => isDigits a
  | [a, b] => (a != "" || b != "") && (a == "" || isDigits a) && (b == "" || isDigits b)
  | _ => false

def extractPriceCurrency (variants : List RawVariant) : Option String × Option String :=
  match variants with
  | [] => (none, none)
  | v :: _ =>
    let price := match v.price with
      | some raw => if isFloatLit raw then some raw else none
      | none => none
    (price, if truthyStr v.currency then v.currency else none)

/-- One iteration of the `_parse_products` loop: build the `Product` schema
for one raw record, with the hero flag already set from the homepage PDP
paths (the Python code mutates `is_hero` on the object it just appended). -/
def parseProduct (base_url : String) (paths : List String) (p : RawProduct) : Product :=
  let handle := p.handle
  let title := (pyOr p.title (pyOr handle (some "Untitled"))).getD "Untitled"
  -- the source also computes `shopify_id = str(p.get("id"))`, a local that
  -- is never stored on the schema (Product is built with `id=None`)
  let pc := extractPriceCurrency p.variants
  let image_url := match p.images with
    | [] => none
    | img :: _ => img.src
  { id := none
    title := title
    url := productUrl base_url handle
    handle := handle
    price := pc.1
    currency := pc.2
    is_hero := truthyStr handle && paths.contains (pyLower ("/products/" ++ handle.getD ""))
    image_url := image_url
    vendor := p.vendor
    product_type := p.product_type
    description := if truthyStr p.body_html then some (stripHtml (p.body_html.getD "")) else none }

/-- `BrandParser._parse_products`: returns (catalog, heroes); on zero
detected heroes the first four catalog entries are mutated to heroes and
aliased into the hero list. -/
def parseProducts (base_url : String) (productsJson : List RawProduct)
    (homepageLinks : List String) : List Product × List Product :=
  let paths := homepageProductPaths homepageLinks
  let catalog := productsJson.map (parseProduct base_url paths)
  let heroes := catalog.filter (fun p => p.is_hero)
  if heroes.isEmpty then
    let markedHead := (catalog.take 4).map (fun p => { p with is_hero := true })
    (markedHead ++ catalog.drop 4, markedHead)
  else
    (catalog, heroes)

/-- The dedup-by-type loop at the end of `_parse_policies` (a dict keyed by
`PolicyType` in insertion order; a candidate replaces the stored entry only
when the stored one has falsy content and the candidate truthy content). -/
def mergePolicies (policies : List Policy) : List Policy :=
  policies.foldl
    (fun merged pol =>
      if merged.any (fun q => q.type == pol.type) then
        merged.map (fun q =>
          if q.type == pol.type && !truthyStr q.content && truthyStr pol.content then pol else q)
      else merged ++ [pol])
    []

/-- `BrandParser._parse_policies`. -/
def parsePolicies (base_url : String) (privacyText refundText : Option String) : List Policy :=
  let fetched :=
    (if truthyStr privacyText then
      [Policy.mk PolicyType.PRIVACY (some (urljoin base_url "/policies/privacy-policy")) privacyText]
     else []) ++
    (if truthyStr refundText then
      [Policy.mk PolicyType.REFUND (some (urljoin base_url "/policies/refund-policy")) refundText]
     else [])
  let placeholders :=
    [Policy.mk PolicyType.SHIPPING (some (urljoin base_url "/policies/shipping-policy")) none,
     Policy.mk PolicyType.TERMS (some (urljoin base_url "/policies/terms-of-service")) none,
     Policy.mk PolicyType.RETURN (some (urljoin base_url "/policies/return-policy")) none]
  mergePolicies (fetched ++ placeholders)

/-- `BrandParser._guess_faq_page_url`. -/
def guessFaqPageUrl (base_url : String) (links : List String) : Option String :=
  (links.find? (fun href =>
    let low := pyLower href
    strContains low "/pages/faq" || strContains low "/pages/faqs" || strContains low "/faq")).map
    (fun href => absolutize base_url href)

/-- `BrandParser._parse_faqs`. -/
def parseFaqs (faqsRaw : List RawFAQ) (faqPageUrl : Option String) : List FAQ :=
  faqsRaw.filterMap (fun item =>
    let q := pyStrip (item.question.getD "")
    if q = "" then none
    else
      let a := pyStrip (item.answer.getD "")
      some (FAQ.mk q (if a = "" then none else some a) faqPageUrl))

/-- The platform classification of `_parse_socials`: the key is stripped,
lowercased and looked up in the platform map, defaulting to the catch-all. -/
def platformOfKey (key : String) : SocialPlatform :=
  let k := pyLower (pyStrip key)
  if k = "instagram" then SocialPlatform.INSTAGRAM
  else if k = "facebook" then SocialPlatform.FACEBOOK
  else if k = "tiktok" then SocialPlatform.TIKTOK
  else if k = "twitter" then SocialPlatform.TWITTER
  else if k = "x" then SocialPlatform.TWITTER
  else if k = "youtube" then SocialPlatform.YOUTUBE
  else if k = "pinterest" then SocialPlatform.PINTEREST
  else if k = "linkedin" then SocialPlatform.LINKEDIN
  else SocialPlatform.OTHER

/-- `BrandParser._parse_socials`: one appended entry per dict item. -/
def parseSocials (socialMap : List (String × String)) : List SocialHandle :=
  socialMap.map (fun kv => SocialHandle.mk (platformOfKey kv.1) kv.2)

/-- Python `dict.get` over the association-list model of a dict. -/
def pyGet (m : List (String × String)) (k : String) : Option String :=
  (m.find? (fun kv => kv.1 == k)).map (fun kv => kv.2)

/-- `BrandParser._parse_contacts`. -/
def parseContacts (contactMap : List (String × String)) : List ContactDetail :=
  let email := pyStrip ((pyGet contactMap "email").getD "")
  let phone := pyStrip ((pyGet contactMap "phone").getD "")
  (if email != "" then [ContactDetail.mk ContactType.EMAIL email] else []) ++
  (if phone != "" then [ContactDetail.mk ContactType.PHONE phone] else [])

/-- The classification cascade inside `_parse_links` for one href: the first
matching rule yields the link kind and label. -/
def classifyLink (base_url href : String) : Option (LinkType × String) :=
  let h := pyLower href
  if strContains h "order" && strContains h "track" then
    some (LinkType.ORDER_TRACKING, "Order Tracking")
  else if strContains h "/contact" || strContains h "/pages/contact" then
    some (LinkType.CONTACT_US, "Contact Us")
  else if strContains h "/blog" then some (LinkType.BLOG, "Blog")
  else if strContains h "/pages/faq" || strContains h "/pages/faqs" || strContains h "/faq" then
    some (LinkType.FAQ, "FAQ")
  else if strContains h "/pages/about" || strContains h "/about" then
    some (LinkType.ABOUT, "About")
  else if rstripSlash h = rstripSlash base_url then some (LinkType.HOMEPAGE, "Homepage")
  else none

/-- The `add` closure of `_parse_links`: skip already-seen kinds, otherwise
append the absolutized link and record the kind. -/
def addLink (base_url : String) (st : List ImportantLink × List LinkType)
    (lt : LinkType) (url : String) (label : Option String) :
    List ImportantLink × List LinkType :=
  if lt ∈ st.2 then st
  else (st.1 ++ [ImportantLink.mk lt (absolutize base_url url) label], st.2 ++ [lt])

/-- One iteration of the `for href in links` loop of `_parse_links`. -/
def linkStep (base_url : String) (st : List ImportantLink × List LinkType) (href : String) :
    List ImportantLink × List LinkType :=
  match classifyLink base_url href with
  | some c => addLink base_url st c.1 href (some c.2)
  | none => st

/-- The state after the classification loop of `_parse_links`. -/
def linkFold (base_url : String) (links : List String) :
    List ImportantLink × List LinkType :=
  links.foldl (linkStep base_url) ([], [])

/-- `BrandParser._parse_links`. -/
def parseLinks (base_url : String) (links : List String) : List ImportantLink :=
  let st := linkFold base_url links
  let st := if LinkType.HOMEPAGE ∈ st.2 then st
    else addLink base_url st LinkType.HOMEPAGE base_url (some "Homepage")
  st.1

/-- `BrandParser.build_brand_context` as the pure record construction; `now`
is the `datetime.utcnow()` reading taken by the `scraped_at` default factory
when the `BrandContext` model is instantiated. -/
def build_brand_context (base_url : String) (brand_name : Option String)
    (bundle : ScrapeBundle) (now : Nat) : BrandContext :=
  let base := normalizeBase base_url
  let pr := parseProducts base bundle.products bundle.links
  { brand_id := none
    brand_name := brand_name
    website_url := base
    about := bundle.about
    product_catalog := pr.1
    hero_products := pr.2
    policies := parsePolicies base bundle.privacy_policy bundle.refund_policy
    faqs := parseFaqs bundle.faqs (guessFaqPageUrl base bundle.links)
    social_handles := parseSocials bundle.social_handles
    contact_details := parseContacts bundle.contact_details
    important_links := parseLinks base bundle.links
    scraped_at := now }

/-! ### Pydantic URL validation, applied when the models are instantiated -/

def validOptUrl : Option String → Bool
  | none => true
  | some s => isHttpUrl s

def validProduct (p : Product) : Bool :=
  validOptUrl p.url && validOptUrl p.image_url

/-- Whether every Pydantic `HttpUrl`-typed field constructed during
`build_brand_context` passes validation (Python raises `ValidationError`
at the first offender, aborting the call). -/
def validate_brand_context (c : BrandContext) : Bool :=
  isHttpUrl c.website_url &&
  c.product_catalog.all validProduct &&
  c.hero_products.all validProduct &&
  c.policies.all (fun p => validOptUrl p.url) &&
  c.faqs.all (fun f => validOptUrl f.url) &&
  c.important_links.all (fun l => isHttpUrl l.url)

/-- `build_brand_context` with the Pydantic validation made explicit: the
Python call returns the context when every URL field validates and raises
`ValidationError` otherwise. -/
def build_brand_context_checked (base_url : String) (brand_name : Option String)
    (bundle : ScrapeBundle) (now : Nat) : Except String BrandContext :=
  let c := build_brand_context base_url brand_name bundle now
  if validate_brand_context c then Except.ok c else Except.error "ValidationError"

/-! ### BrandRepository._upsert_products (app/services/persistence.py)

The relational `products` table is modelled as a list of rows in insertion
order; `rid` stands for the autoincrement primary key handed out by
`db.flush()`.  SQLAlchemy rows are mutable objects: the dict indexes built
at the top of `_upsert_products` hold references, so an update through one
key is visible through the other; the model realizes this by updating the
row with the matched `rid` inside the current row list. -/

structure DBProduct where
  rid : Nat
  brand_id : Nat
  shopify_product_id : Option String := none
  title : String := ""
  handle : Option String := none
  url : Option String := none
  price : Option String := none
  currency : Option String := none
  is_hero : Bool := false
  image_url : Option String := none
  vendor : Option String := none
  product_type : Option String := none
  description : Option String := none
deriving DecidableEq, Repr

inductive KeyKind
  | handle | title
deriving DecidableEq, Repr

/-- `BrandRepository._product_key`. -/
def product_key (p : Product) : KeyKind × String :=
  let h := pyLower (pyStrip (p.handle.getD ""))
  let t := pyLower (pyStrip p.title)
  if h != "" then (KeyKind.handle, h) else (KeyKind.title, t)

/-- Truthiness of a row's handle (`if e.handle:`). -/
def rowHandleTruthy (e : DBProduct) : Bool :=
  match e.handle with
  | some h => h != ""
  | none => false

/-- Lookup in the `by_handle` dict built from `existing`: the dict maps each
normalized handle of a truthy-handle row to the last such row in iteration
order, so the lookup finds the last matching row. -/
def lookupByHandle (rows : List DBProduct) (k : String) : Option DBProduct :=
  rows.reverse.find? (fun e => rowHandleTruthy e && pyLower (pyStrip (e.handle.getD "")) == k)

/-- Lookup in the `by_title` dict built from `existing` (`if e.title:`). -/
def lookupByTitle (rows : List DBProduct) (k : String) : Option DBProduct :=
  rows.reverse.find? (fun e => e.title != "" && pyLower (pyStrip e.title) == k)

/-- Row matched for an incoming product: handle key only consults
`by_handle`, title key only consults `by_title`. -/
def lookupRow (idx : List DBProduct) (p : Product) : Option DBProduct :=
  match product_key p with
  | (KeyKind.handle, k) => lookupByHandle idx k
  | (KeyKind.title, k) => lookupByTitle idx k

/-- Python `str(x) if x else None` on an optional string field. -/
def strOrNone : Option String → Option String
  | some s => if s = "" then none else some s
  | none => none

/-- The field-update block of the `_upsert_products` loop applied to a row
(existing rows and freshly added blank rows get the same block). -/
def applyProduct (e : DBProduct) (p : Product) : DBProduct :=
  { e with
    shopify_product_id :=
      match p.id with
      | some n => if n = 0 then e.shopify_product_id else some (toString n)
      | none => e.shopify_product_id
    title := p.title
    handle := p.handle
    url := strOrNone p.url
    price := p.price
    currency := p.currency
    is_hero := p.is_hero
    image_url := strOrNone p.image_url
    vendor := p.vendor
    product_type := p.product_type
    description := p.description }

/-- A freshly constructed `m.Product(brand_id=brand.id)` row, with its
flush-assigned primary key. -/
def blankRow (brandId rid : Nat) : DBProduct :=
  { rid := rid, brand_id := brandId }

/-- The `uq_product_brand_handle` UNIQUE constraint on `(brand_id, handle)`
(db_models.py, created by `Base.metadata.create_all`): the non-NULL handles
of the rows must be pairwise distinct per brand.  SQL UNIQUE admits any
number of NULL handles; an empty-string handle is a value and does count. -/
def handleUniqueOk (rows : List DBProduct) : Bool :=
  decide (rows.filterMap (fun e => e.handle.map (fun h => (e.brand_id, h)))).Nodup

/-- The per-product loop of `_upsert_products`; `idx` is the fixed list of
rows the `by_handle`/`by_title` dicts were built from (the rows that existed
before the call — the indexes are never updated as rows are inserted).
Each iteration ends with `db.flush()`, which raises `IntegrityError` when
the just-inserted or just-updated row violates `uq_product_brand_handle`;
the error aborts the call (modelled as the error result). -/
def upsertLoop (idx : List DBProduct) (brandId : Nat) :
    List DBProduct × Nat → List Product → Except String (List DBProduct × Nat)
  | st, [] => Except.ok st
  | st, p :: ps =>
    let st' :=
      match lookupRow idx p with
      | some row => ((st.1.map (fun e => if e.rid == row.rid then applyProduct e p else e),
          st.2) : List DBProduct × Nat)
      | none => (st.1 ++ [applyProduct (blankRow brandId st.2) p], st.2 + 1)
    if handleUniqueOk st'.1 then upsertLoop idx brandId st' ps
    else Except.error "IntegrityError"

/-- `BrandRepository._upsert_products`: `rows0` are the brand's existing
product rows, `nextId` the next autoincrement key; returns the table after
the call together with the next free key, or the `IntegrityError` raised by
a `db.flush()` whose pending row duplicates a non-NULL handle. -/
def upsertProducts (brandId : Nat) (rows0 : List DBProduct) (nextId : Nat)
    (products : List Product) : Except String (List DBProduct × Nat) :=
  upsertLoop rows0 brandId (rows0, nextId) products

/-- Erase the volatile `scraped_at` field, for stating which part of the
builder output is reproducible. -/
def scrubTimestamp (c : BrandContext) : BrandContext :=
  { c with scraped_at := 0 }

/-- The rows inserted by an `_upsert_products` run in which no incoming
product matched (each one is a blank row with the update block applied and
a successively flushed primary key). -/
def freshRows (brandId : Nat) : Nat → List Product → List DBProduct
  | _, [] => []
  | n, p :: ps => applyProduct (blankRow brandId n) p :: freshRows brandId (n + 1) ps

/-! ### Concrete inputs used by witnesses and counterexamples -/

def feedSix : List RawProduct :=
  [{ title := some "P1", handle := some "p1" }, { title := some "P2", handle := some "p2" },
   { title := some "P3", handle := some "p3" }, { title := some "P4", handle := some "p4" },
   { title := some "P5", handle := some "p5" }, { title := some "P6", handle := some "p6" }]

def feedThree : List RawProduct :=
  [{ title := some "P1", handle := some "p1" }, { title := some "P2", handle := some "p2" },
   { title := some "P3", handle := some "p3" }]

def teeFeed : List RawProduct :=
  [{ title := some "P1", handle := some "p1" }, { title := some "P2", handle := some "p2" },
   { title := some "P3", handle := some "p3" }, { title := some "P4", handle := some "p4" },
   { title := some "Tee", handle := some "tee-shirt" }]

def oneFeed : List RawProduct := [{ title := some "Solo" }]

/-- A bundle whose only defect is a product image whose `src` is not a
well-formed URL (Pydantic `HttpUrl` rejects it). -/
def malformedBundle : ScrapeBundle :=
  { products := [{ title := some "T", images := [{ src := some "not a url" }] }] }

/-- A stored product row whose handle and title keys point at the same row
but belong to different incoming products. -/
def seedRow : DBProduct := { rid := 0, brand_id := 1, handle := some "h1", title := "t" }

def prodA : Product := { title := "A", handle := some "h1" }

def prodB : Product := { title := "t" }

def dupP : Product := { title := "dup one", handle := some "dup" }

def dupQ : Product := { title := "dup two", handle := some "dup" }

/-- Two title-keyed products with the same normalized-title key and NULL
handles: their duplicate-key double insert passes the unique constraint. -/
def dupTitleP : Product := { title := "Dup" }

def dupTitleQ : Product := { title := "dup " }

/-! ### Helper lemmas -/

theorem parseProduct_handle (base_url : String) (paths : List String) (p : RawProduct) :
    (parseProduct base_url paths p).handle = p.handle := rfl

theorem parseProduct_is_hero_eq (base_url : String) (paths : List String) (p : RawProduct) :
    (parseProduct base_url paths p).is_hero =
      (truthyStr p.handle && paths.contains (pyLower ("/products/" ++ p.handle.getD ""))) := rfl

theorem parseProduct_is_hero_false (base_url : String) (paths : List String) (p : RawProduct)
    (h : truthyStr p.handle = true → pyLower ("/products/" ++ p.handle.getD "") ∉ paths) :
    (parseProduct base_url paths p).is_hero = false := by
  rw [parseProduct_is_hero_eq]
  cases ht : truthyStr p.handle with
  | false => simp
  | true =>
    have hmem := h ht
    simp only [Bool.true_and]
    simpa [List.elem_eq_mem] using hmem

theorem parseProduct_is_hero_true (base_url : String) (paths : List String) (p : RawProduct)
    (hh : p.handle = some "tee-shirt") (hmem : "/products/tee-shirt" ∈ paths) :
    (parseProduct base_url paths p).is_hero = true := by
  rw [parseProduct_is_hero_eq, hh]
  have hlow : pyLower ("/products/" ++ "tee-shirt") = "/products/tee-shirt" := rfl
  simp only [Option.getD_some, hlow]
  simp [truthyStr, List.elem_eq_mem, hmem]

theorem parseProducts_fallback (base_url : String) (ps : List RawProduct) (links : List String)
    (h : ∀ p ∈ ps, (parseProduct base_url (homepageProductPaths links) p).is_hero = false) :
    parseProducts base_url ps links =
      (((ps.map (parseProduct base_url (homepageProductPaths links))).take 4).map
          (fun p => { p with is_hero := true }) ++
        (ps.map (parseProduct base_url (homepageProductPaths links))).drop 4,
       ((ps.map (parseProduct base_url (homepageProductPaths links))).take 4).map
          (fun p => { p with is_hero := true })) := by
  have hfil : (ps.map (parseProduct base_url (homepageProductPaths links))).filter
      (fun p => p.is_hero) = [] := by
    refine List.filter_eq_nil_iff.mpr ?_
    intro a ha
    rcases List.mem_map.mp ha with ⟨p, hp, rfl⟩
    simp [h p hp]
  unfold parseProducts
  simp [hfil]

theorem parseProducts_detected (base_url : String) (ps : List RawProduct) (links : List String)
    (h : (ps.map (parseProduct base_url (homepageProductPaths links))).filter
        (fun p => p.is_hero) ≠ []) :
    parseProducts base_url ps links =
      (ps.map (parseProduct base_url (homepageProductPaths links)),
       (ps.map (parseProduct base_url (homepageProductPaths links))).filter
         (fun p => p.is_hero)) := by
  unfold parseProducts
  simp [List.isEmpty_iff, h]

theorem build_product_catalog (base_url : String) (name : Option String)
    (bundle : ScrapeBundle) (now : Nat) :
    (build_brand_context base_url name bundle now).product_catalog =
      (parseProducts (normalizeBase base_url) bundle.products bundle.links).1 := rfl

theorem build_hero_products (base_url : String) (name : Option String)
    (bundle : ScrapeBundle) (now : Nat) :
    (build_brand_context base_url name bundle now).hero_products =
      (parseProducts (normalizeBase base_url) bundle.products bundle.links).2 := rfl

/-! ### Claim C3: hero fallback -/

/-- C3: for a product feed of 6 products and a homepage link list containing
none of their product-detail-page paths, the hero products returned by the
product-parsing step are the first 4 parsed products in feed order, each
with `is_hero = true`; with fewer than four products and no detected hero,
all products become heroes (the hero list equals the whole catalog). -/
theorem hero_fallback (base_url : String) (ps : List RawProduct) (links : List String)
    (hnone : ∀ p ∈ ps, truthyStr p.handle = true →
      pyLower ("/products/" ++ p.handle.getD "") ∉ homepageProductPaths links) :
    (ps.length = 6 →
      (parseProducts base_url ps links).2 =
        ((ps.map (parseProduct base_url (homepageProductPaths links))).take 4).map
          (fun p => { p with is_hero := true })) ∧
    (∀ q ∈ (parseProducts base_url ps links).2, q.is_hero = true) ∧
    (ps.length < 4 →
      (parseProducts base_url ps links).2 =
        (ps.map (parseProduct base_url (homepageProductPaths links))).map
          (fun p => { p with is_hero := true }) ∧
      (parseProducts base_url ps links).1 = (parseProducts base_url ps links).2) := by
  have hdet : ∀ p ∈ ps, (parseProduct base_url (homepageProductPaths links) p).is_hero = false :=
    fun p hp => parseProduct_is_hero_false _ _ _ (hnone p hp)
  have heq := parseProducts_fallback base_url ps links hdet
  refine ⟨fun _ => by rw [heq], ?_, ?_⟩
  · intro q hq
    rw [heq] at hq
    rcases List.mem_map.mp hq with ⟨p, _, rfl⟩
    rfl
  · intro h4
    have hlen : (ps.map (parseProduct base_url (homepageProductPaths links))).length ≤ 4 := by
      simpa using Nat.le_of_lt h4
    refine ⟨by rw [heq, List.take_of_length_le hlen], ?_⟩
    rw [heq]
    simp [List.drop_eq_nil_of_le hlen]

theorem hero_fallback_witness :
    (parseProducts "https://example.com" feedSix ["/pages/about", "https://example.com"]).2 =
      ((feedSix.map (parseProduct "https://example.com"
          (homepageProductPaths ["/pages/about", "https://example.com"]))).take 4).map
        (fun p => { p with is_hero := true }) ∧
    (parseProducts "https://example.com" feedThree []).1 =
      (parseProducts "https://example.com" feedThree []).2 := by
  refine ⟨?_, ?_⟩
  · exact (hero_fallback "https://example.com" feedSix _ (by decide)).1 (by decide)
  · exact ((hero_fallback "https://example.com" feedThree [] (by decide)).2.2 (by decide)).2

/-! ### Claim C4: hero detection up to case and trailing slash -/

/-- C4 (amended): a product with handle `"tee-shirt"` is marked hero in the
built profile whenever some homepage link contains the lowercase substring
`"/products/"` and canonicalizes (case-insensitively, trailing slash
stripped) to `"/products/tee-shirt"`; links whose `products` segment is not
lowercase fail the case-sensitive pre-filter and are never considered. -/
theorem hero_detection_amended (base_url : String) (name : Option String)
    (bundle : ScrapeBundle) (now : Nat) (q : Product)
    (hlink : ∃ l ∈ bundle.links, strContains l "/products/" = true ∧
      canonicalizeProductPath l = "/products/tee-shirt")
    (hq : q ∈ (build_brand_context base_url name bundle now).product_catalog)
    (hh : q.handle = some "tee-shirt") :
    q.is_hero = true := by
  rcases hlink with ⟨l, hl, hcon, hcanon⟩
  have hpath : "/products/tee-shirt" ∈ homepageProductPaths bundle.links := by
    rw [← hcanon]
    exact List.mem_map_of_mem _ (List.mem_filter.mpr ⟨hl, hcon⟩)
  rw [build_product_catalog] at hq
  by_cases hemp : (bundle.products.map
      (parseProduct (normalizeBase base_url) (homepageProductPaths bundle.links))).filter
      (fun p => p.is_hero) = []
  · have hall : ∀ p ∈ bundle.products,
        (parseProduct (normalizeBase base_url) (homepageProductPaths bundle.links) p).is_hero
          = false := by
      intro p hp
      simpa using List.filter_eq_nil_iff.mp hemp _ (List.mem_map_of_mem _ hp)
    rw [parseProducts_fallback _ _ _ hall] at hq
    rcases List.mem_append.mp hq with hq1 | hq2
    · rcases List.mem_map.mp hq1 with ⟨p, _, rfl⟩
      rfl
    · exfalso
      rcases List.mem_map.mp (List.mem_of_mem_drop hq2) with ⟨p, hp, rfl⟩
      have hph : p.handle = some "tee-shirt" := by
        rw [← parseProduct_handle (normalizeBase base_url) (homepageProductPaths bundle.links) p]
        exact hh
      have htrue := parseProduct_is_hero_true (normalizeBase base_url) _ p hph hpath
      rw [hall p hp] at htrue
      exact Bool.false_ne_true htrue
  · rw [parseProducts_detected _ _ _ hemp] at hq
    rcases List.mem_map.mp hq with ⟨p, _, rfl⟩
    have hph : p.handle = some "tee-shirt" := by
      rw [← parseProduct_handle (normalizeBase base_url) (homepageProductPaths bundle.links) p]
      exact hh
    exact parseProduct_is_hero_true (normalizeBase base_url) _ p hph hpath

/-- C4 (counterexample): with the homepage link `"/PRODUCTS/TEE-SHIRT"` —
the claimed case-variant of `"/products/tee-shirt"` — in a 5-product feed
where `tee-shirt` is the fifth product, the built profile leaves that
product's `is_hero` false: the `"/products/" in link` pre-filter is
case-sensitive, so the link is discarded before canonicalization. -/
theorem hero_detection_counterexample :
    pyLower "/PRODUCTS/TEE-SHIRT" = "/products/tee-shirt" ∧
    (∃ q ∈ (build_brand_context "https://example.com" none
        { products := teeFeed, links := ["/PRODUCTS/TEE-SHIRT"] } 0).product_catalog,
      q.handle = some "tee-shirt" ∧ q.is_hero = false) := by decide

theorem hero_detection_amended_witness :
    (((build_brand_context "https://example.com" none
        { products := teeFeed, links := ["/products/tee-shirt/"] } 0).product_catalog).getD 4
        { title := "" }).is_hero = true :=
  hero_detection_amended "https://example.com" none
    { products := teeFeed, links := ["/products/tee-shirt/"] } 0 _
    (by decide) (by decide) (by decide)

/-! ### Claim C5: hero subset invariant -/

/-- C5: for every scrape bundle, the hero products of the built BrandContext
are a subset of the product catalog, and the hero list is non-empty whenever
the catalog is non-empty. -/
theorem hero_subset_invariant (base_url : String) (name : Option String)
    (bundle : ScrapeBundle) (now : Nat) :
    (∀ q ∈ (build_brand_context base_url name bundle now).hero_products,
        q ∈ (build_brand_context base_url name bundle now).product_catalog) ∧
    ((build_brand_context base_url name bundle now).product_catalog ≠ [] →
      (build_brand_context base_url name bundle now).hero_products ≠ []) := by
  rw [build_hero_products, build_product_catalog]
  by_cases hemp : (bundle.products.map
      (parseProduct (normalizeBase base_url) (homepageProductPaths bundle.links))).filter
      (fun p => p.is_hero) = []
  · have hall : ∀ p ∈ bundle.products,
        (parseProduct (normalizeBase base_url) (homepageProductPaths bundle.links) p).is_hero
          = false := by
      intro p hp
      simpa using List.filter_eq_nil_iff.mp hemp _ (List.mem_map_of_mem _ hp)
    rw [parseProducts_fallback _ _ _ hall]
    refine ⟨fun q hq => List.mem_append_left _ hq, ?_⟩
    intro hne h2
    apply hne
    have htake : (bundle.products.map
        (parseProduct (normalizeBase base_url) (homepageProductPaths bundle.links))).take 4
        = [] := List.map_eq_nil_iff.mp h2
    have hnil : bundle.products.map
        (parseProduct (normalizeBase base_url) (homepageProductPaths bundle.links)) = [] := by
      rcases List.take_eq_nil_iff.mp htake with h | h
      · exact absurd h (by norm_num)
      · exact h
    rw [hnil]
    simp
  · rw [parseProducts_detected _ _ _ hemp]
    exact ⟨fun q hq => List.mem_of_mem_filter hq, fun _ => hemp⟩

theorem hero_subset_invariant_witness :
    (build_brand_context "https://example.com" none { products := oneFeed } 0).hero_products
      ≠ [] :=
  (hero_subset_invariant "https://example.com" none { products := oneFeed } 0).2 (by decide)

/-! ### Claim C1: policy assembly and dedup -/

/-- `product_key` with its local bindings reduced. -/
theorem product_key_eq (p : Product) :
    product_key p =
      if pyLower (pyStrip (p.handle.getD "")) != "" then
        (KeyKind.handle, pyLower (pyStrip (p.handle.getD "")))
      else (KeyKind.title, pyLower (pyStrip p.title)) := rfl

/-- C1 (counterexample): for the scrape bundle whose privacy-policy text is
"X" and whose refund text is absent, the built policies list has only 4
entries and no refund entry at all — `_parse_policies` synthesizes
placeholders for shipping, terms and return but not for refund, so the
claimed "exactly 5 entries, one per policy kind" fails. -/
theorem policy_assembly_counterexample :
    ((build_brand_context "https://example.com" none { privacy_policy := some "X" } 0).policies).length
      = 4 ∧
    ((build_brand_context "https://example.com" none
        { privacy_policy := some "X" } 0).policies).all
      (fun p => p.type != PolicyType.REFUND) = true := by decide

/-- C1 (amended): when the refund text is also fetched (truthy), the built
policies list has exactly 5 entries in order privacy, refund, shipping,
terms, return — one per policy kind — with the privacy entry carrying the
fetched text and the terms entry's content null; without a fetched refund
text there is no refund entry (no refund placeholder is synthesized). -/
theorem policy_assembly_dedup (base_url : String) (name : Option String)
    (bundle : ScrapeBundle) (now : Nat) (px rx : String)
    (hp : bundle.privacy_policy = some px) (hpx : px ≠ "")
    (hr : bundle.refund_policy = some rx) (hrx : rx ≠ "") :
    ((build_brand_context base_url name bundle now).policies).map Policy.type =
      [PolicyType.PRIVACY, PolicyType.REFUND, PolicyType.SHIPPING, PolicyType.TERMS,
       PolicyType.RETURN] ∧
    ((build_brand_context base_url name bundle now).policies).map Policy.content =
      [some px, some rx, none, none, none] := by
  have hb : (build_brand_context base_url name bundle now).policies =
      parsePolicies (normalizeBase base_url) (some px) (some rx) := by
    rw [show (build_brand_context base_url name bundle now).policies =
      parsePolicies (normalizeBase base_url) bundle.privacy_policy bundle.refund_policy
      from rfl, hp, hr]
  rw [hb]
  unfold parsePolicies mergePolicies
  have h1 : truthyStr (some px) = true := by simp [truthyStr, hpx]
  have h2 : truthyStr (some rx) = true := by simp [truthyStr, hrx]
  rw [h1, h2]
  simp

theorem policy_assembly_dedup_witness :
    ((build_brand_context "https://example.com" none
        { privacy_policy := some "X", refund_policy := some "Y" } 0).policies).map Policy.type =
      [PolicyType.PRIVACY, PolicyType.REFUND, PolicyType.SHIPPING, PolicyType.TERMS,
       PolicyType.RETURN] ∧
    ((build_brand_context "https://example.com" none
        { privacy_policy := some "X", refund_policy := some "Y" } 0).policies).map Policy.content =
      [some "X", some "Y", none, none, none] :=
  policy_assembly_dedup "https://example.com" none
    { privacy_policy := some "X", refund_policy := some "Y" } 0 "X" "Y"
    rfl (by decide) rfl (by decide)

/-! ### Claim C2: normalizer determinism -/

/-- C2 (counterexample): two calls on the same inputs at different clock
readings differ — `scraped_at` is a `datetime.utcnow()` default factory, so
the `BrandContext` is not byte-for-byte identical across runs. -/
theorem normalizer_determinism_counterexample :
    build_brand_context "https://example.com" none {} 0 ≠
      build_brand_context "https://example.com" none {} 1 := by decide

/-- C2 (amended): for fixed inputs, two calls to `build_brand_context`
agree on every field except `scraped_at`, which records each call's own
wall-clock reading. -/
theorem normalizer_determinism_amended (base_url : String) (name : Option String)
    (bundle : ScrapeBundle) (t1 t2 : Nat) :
    scrubTimestamp (build_brand_context base_url name bundle t1) =
      scrubTimestamp (build_brand_context base_url name bundle t2) ∧
    (build_brand_context base_url name bundle t1).scraped_at = t1 :=
  ⟨rfl, rfl⟩

/-! ### Claim C6: social-handle uniqueness -/

/-- C6 (counterexample): the input keys "twitter" and "x" both classify to
the twitter platform and `_parse_socials` appends one entry per key without
deduplication, so the built `social_handles` holds two twitter entries. -/
theorem social_uniqueness_counterexample :
    ((build_brand_context "https://example.com" none
        { social_handles := [("twitter", "u1"), ("x", "u2")] } 0).social_handles.filter
      (fun s => s.platform == SocialPlatform.TWITTER)).length = 2 := by decide

/-- C6 (amended): the built `social_handles` has exactly one entry per input
key; platforms are pairwise distinct only when the classified platforms of
the input keys are pairwise distinct — distinct keys classifying to the
same platform (such as "twitter" and "x") yield duplicate platform entries,
and per-platform uniqueness is enforced only later by the persistence
upsert keyed on platform. -/
theorem social_uniqueness_amended (base_url : String) (name : Option String)
    (bundle : ScrapeBundle) (now : Nat)
    (hplat : (bundle.social_handles.map (fun kv => platformOfKey kv.1)).Nodup) :
    ((build_brand_context base_url name bundle now).social_handles.map
      SocialHandle.platform).Nodup ∧
    (build_brand_context base_url name bundle now).social_handles.length =
      bundle.social_handles.length := by
  have hs : (build_brand_context base_url name bundle now).social_handles =
      parseSocials bundle.social_handles := rfl
  rw [hs]
  unfold parseSocials
  refine ⟨?_, by simp⟩
  rw [List.map_map]
  exact hplat

theorem social_uniqueness_amended_witness :
    ((build_brand_context "https://example.com" none
        { social_handles := [("instagram", "u1"), ("x", "u2")] } 0).social_handles.map
      SocialHandle.platform).Nodup :=
  (social_uniqueness_amended "https://example.com" none
    { social_handles := [("instagram", "u1"), ("x", "u2")] } 0 (by decide)).1

/-! ### Claim C7: link classification -/

theorem addLink_types (base_url : String) (st : List ImportantLink × List LinkType)
    (lt : LinkType) (url : String) (label : Option String)
    (h : st.2 = st.1.map ImportantLink.link_type) :
    (addLink base_url st lt url label).2 =
      (addLink base_url st lt url label).1.map ImportantLink.link_type := by
  unfold addLink
  split
  · exact h
  · simp [h]

theorem linkFoldAux_types (base_url : String) (links : List String) :
    ∀ st : List ImportantLink × List LinkType, st.2 = st.1.map ImportantLink.link_type →
      (links.foldl (linkStep base_url) st).2 =
        (links.foldl (linkStep base_url) st).1.map ImportantLink.link_type := by
  induction links with
  | nil => exact fun st h => h
  | cons l ls ih =>
    intro st h
    rw [List.foldl_cons]
    apply ih
    unfold linkStep
    cases hc : classifyLink base_url l with
    | none => exact h
    | some c => exact addLink_types _ _ _ _ _ h

/-- The homepage link is always present in `_parse_links` output: either a
link classified as homepage during the loop, or the synthetic one appended
at the end. -/
theorem parseLinks_homepage (base_url : String) (links : List String) :
    ∃ l ∈ parseLinks base_url links, l.link_type = LinkType.HOMEPAGE := by
  have hinv : (linkFold base_url links).2 =
      (linkFold base_url links).1.map ImportantLink.link_type :=
    linkFoldAux_types base_url links ([], []) rfl
  unfold parseLinks
  by_cases hh : LinkType.HOMEPAGE ∈ (linkFold base_url links).2
  · simp only [hh, if_true]
    rw [hinv] at hh
    rcases List.mem_map.mp hh with ⟨l, hl, hlt⟩
    exact ⟨l, hl, hlt⟩
  · simp only [hh, if_false]
    unfold addLink
    simp only [hh, if_false]
    exact ⟨_, List.mem_append_right _ (List.mem_singleton.mpr rfl), rfl⟩

/-- C7: for homepage links `"/pages/about"` and `"/pages/faq"` plus the base
URL itself, the built profile's important links are exactly one about, one
faq and one homepage entry (in that order); and for every input, a homepage
link is present in the built profile (synthesized when absent). -/
theorem link_classification :
    ((build_brand_context "https://example.com" none
        { links := ["/pages/about", "/pages/faq", "https://example.com"] } 0).important_links).map
      ImportantLink.link_type = [LinkType.ABOUT, LinkType.FAQ, LinkType.HOMEPAGE] ∧
    ∀ (base_url : String) (name : Option String) (bundle : ScrapeBundle) (now : Nat),
      ∃ l ∈ (build_brand_context base_url name bundle now).important_links,
        l.link_type = LinkType.HOMEPAGE := by
  refine ⟨by decide, ?_⟩
  intro base_url name bundle now
  exact parseLinks_homepage (normalizeBase base_url) bundle.links

/-! ### Claim C8: degraded-input tolerance -/

/-- C8: the claim that `build_brand_context` never raises fails on the code:
a product whose first image `src` is not a well-formed URL makes the
Pydantic `Product` model raise `ValidationError` inside the builder
(modelled as the error result), contradicting the specified "never
propagates as an error" behavior; the all-fields-absent bundle, in
contrast, does produce the specified degenerate profile. -/
theorem degraded_input_tolerance_bug :
    build_brand_context_checked "https://example.com" none malformedBundle 0 =
      Except.error "ValidationError" ∧
    build_brand_context_checked "https://example.com" none {} 0 =
      Except.ok (build_brand_context "https://example.com" none {} 0) ∧
    (build_brand_context "https://example.com" none {} 0).product_catalog = [] ∧
    (build_brand_context "https://example.com" none {} 0).policies.all
      (fun p => p.content == none) = true ∧
    (build_brand_context "https://example.com" none {} 0).faqs = [] ∧
    (build_brand_context "https://example.com" none {} 0).social_handles = [] ∧
    (build_brand_context "https://example.com" none {} 0).contact_details = [] ∧
    (build_brand_context "https://example.com" none {} 0).important_links.map
      ImportantLink.link_type = [LinkType.HOMEPAGE] :=
  ⟨rfl, rfl, rfl, rfl, rfl, rfl, rfl, rfl⟩


/-! ### Claims C9 and C10: product reconciliation -/

/-- Constraint satisfaction is inherited by sublists of the row list. -/
theorem handleUniqueOk_of_sublist (rows rows' : List DBProduct) (hs : rows'.Sublist rows)
    (h : handleUniqueOk rows = true) : handleUniqueOk rows' = true := by
  unfold handleUniqueOk at h ⊢
  rw [decide_eq_true_eq] at h ⊢
  exact List.Nodup.sublist (List.Sublist.filterMap _ hs) h

/-- Row-count law of the upsert loop: when the run completes without an
`IntegrityError`, the table has grown by exactly one row per incoming
product whose key misses the fixed pre-call indexes, regardless of earlier
iterations. -/
theorem upsertLoop_length (idx : List DBProduct) (brandId : Nat) :
    ∀ (st : List DBProduct × Nat) (ps : List Product) (out : List DBProduct × Nat),
      upsertLoop idx brandId st ps = Except.ok out →
      out.1.length = st.1.length + (ps.filter (fun p => (lookupRow idx p).isNone)).length := by
  intro st ps
  induction ps generalizing st with
  | nil =>
    intro out h
    injection h with h
    rw [← h]
    simp
  | cons p ps ih =>
    intro out h
    cases hl : lookupRow idx p with
    | some row =>
      simp only [upsertLoop, hl] at h
      by_cases hu : handleUniqueOk
          (st.1.map (fun e => if e.rid == row.rid then applyProduct e p else e)) = true
      · rw [if_pos hu] at h
        have := ih _ _ h
        simp only [List.length_map] at this
        rw [this]
        simp [List.filter_cons, hl]
      · rw [if_neg hu] at h
        exact absurd h (by simp)
    | none =>
      simp only [upsertLoop, hl] at h
      by_cases hu : handleUniqueOk (st.1 ++ [applyProduct (blankRow brandId st.2) p]) = true
      · rw [if_pos hu] at h
        have := ih _ _ h
        simp only [List.length_append, List.length_singleton] at this
        rw [this]
        simp [List.filter_cons, hl]
        omega
      · rw [if_neg hu] at h
        exact absurd h (by simp)

theorem lookupRow_nil (p : Product) : lookupRow [] p = none := by
  unfold lookupRow
  rcases hk : product_key p with ⟨kind, k⟩
  cases kind <;> rfl

/-- A completed run against an empty table inserts one fresh row per
product. -/
theorem upsertLoop_nil_idx_ok (brandId : Nat) :
    ∀ (ps : List Product) (rows : List DBProduct) (n : Nat) (out : List DBProduct × Nat),
      upsertLoop [] brandId (rows, n) ps = Except.ok out →
      out = (rows ++ freshRows brandId n ps, n + ps.length) := by
  intro ps
  induction ps with
  | nil =>
    intro rows n out h
    injection h with h
    rw [← h]
    simp [freshRows]
  | cons p ps ih =>
    intro rows n out h
    simp only [upsertLoop, lookupRow_nil] at h
    by_cases hu : handleUniqueOk (rows ++ [applyProduct (blankRow brandId n) p]) = true
    · rw [if_pos hu] at h
      have := ih _ _ _ h
      rw [this]
      simp [freshRows]
      omega
    · rw [if_neg hu] at h
      exact absurd h (by simp)

theorem freshRows_fields (brandId : Nat) :
    ∀ (ps : List Product) (n : Nat) (p : Product), p ∈ ps →
      ∃ r ∈ freshRows brandId n ps, r.handle = p.handle ∧ r.title = p.title := by
  intro ps
  induction ps with
  | nil => intro n p hp; cases hp
  | cons q qs ih =>
    intro n p hp
    rcases List.mem_cons.mp hp with rfl | hp2
    · exact ⟨applyProduct (blankRow brandId n) p, List.mem_cons_self _ _, rfl, rfl⟩
    · rcases ih (n + 1) p hp2 with ⟨r, hr, h1, h2⟩
      exact ⟨r, List.mem_cons_of_mem _ hr, h1, h2⟩

theorem handle_key_spec (p : Product) (k : String)
    (h : product_key p = (KeyKind.handle, k)) :
    ∃ hs, p.handle = some hs ∧ hs ≠ "" ∧ pyLower (pyStrip hs) = k := by
  rw [product_key_eq] at h
  by_cases hc : (pyLower (pyStrip (p.handle.getD "")) != "") = true
  · rw [if_pos hc] at h
    injection h with h1 h2
    cases hh : p.handle with
    | none =>
      rw [hh] at hc
      exact absurd hc (by decide)
    | some hs =>
      refine ⟨hs, rfl, ?_, ?_⟩
      · intro he
        rw [hh, he] at hc
        exact absurd hc (by decide)
      · rw [hh] at h2
        simpa using h2
  · rw [if_neg hc] at h
    injection h with h1 h2
    exact absurd h1 (by decide)

theorem title_key_spec (p : Product) (k : String)
    (h : product_key p = (KeyKind.title, k)) :
    pyLower (pyStrip p.title) = k := by
  rw [product_key_eq] at h
  by_cases hc : (pyLower (pyStrip (p.handle.getD "")) != "") = true
  · rw [if_pos hc] at h
    injection h with h1 h2
    exact absurd h1 (by decide)
  · rw [if_neg hc] at h
    injection h with h1 h2

theorem lookupByHandle_isSome (rows : List DBProduct) (k : String) (r : DBProduct)
    (hr : r ∈ rows) (hh : rowHandleTruthy r = true)
    (hk : pyLower (pyStrip (r.handle.getD "")) = k) :
    (lookupByHandle rows k).isSome := by
  unfold lookupByHandle
  rw [List.find?_isSome]
  exact ⟨r, List.mem_reverse.mpr hr, by simp [hh, hk]⟩

theorem lookupByTitle_isSome (rows : List DBProduct) (k : String) (r : DBProduct)
    (hr : r ∈ rows) (ht : r.title ≠ "") (hk : pyLower (pyStrip r.title) = k) :
    (lookupByTitle rows k).isSome := by
  unfold lookupByTitle
  rw [List.find?_isSome]
  exact ⟨r, List.mem_reverse.mpr hr, by simp [ht, hk]⟩

/-- C9 (counterexample): from a stored state with one row whose handle key
and title key belong to two different incoming products, two runs of
`_upsert_products` on the same two-product feed (pairwise-distinct keys,
both runs flushing cleanly — no unique-constraint violation arises on this
trace) leave 1 row after the first run but 2 rows after the second: the
first run's title-keyed update overwrites the row's handle, so the second
run no longer finds the handle key and inserts a fresh row. -/
theorem reconciliation_counterexample :
    product_key prodA ≠ product_key prodB ∧
    (upsertProducts 1 [seedRow] 1 [prodA, prodB]).map (fun st => st.1.length) =
      Except.ok 1 ∧
    ((upsertProducts 1 [seedRow] 1 [prodA, prodB]).bind
        (fun st => upsertProducts 1 st.1 5 [prodA, prodB])).map (fun st => st.1.length) =
      Except.ok 2 :=
  ⟨by decide, rfl, rfl⟩

/-- C9 (amended): for a brand with no previously stored product rows, a
product feed with pairwise-distinct keys whose title-keyed products have
non-empty titles, and two runs of `_upsert_products` that both complete
without an `IntegrityError` from `uq_product_brand_handle`, the second run
leaves exactly as many rows as the first — every second-run product matches
a row inserted by the first run and updates in place.  (A run can instead
raise `IntegrityError` at flush when two inserted rows repeat the same
non-NULL handle, e.g. two title-keyed products both carrying handle "".) -/
theorem reconciliation_non_duplication (brandId n1 n2 : Nat) (ps : List Product)
    (hdist : ps.Pairwise (fun p q => product_key p ≠ product_key q))
    (htitle : ∀ p ∈ ps, (product_key p).1 = KeyKind.title → p.title ≠ "")
    (out1 out2 : List DBProduct × Nat)
    (h1 : upsertProducts brandId [] n1 ps = Except.ok out1)
    (h2 : upsertProducts brandId out1.1 n2 ps = Except.ok out2) :
    out2.1.length = out1.1.length := by
  have hrows1 : out1.1 = freshRows brandId n1 ps := by
    have := upsertLoop_nil_idx_ok brandId ps [] n1 out1 h1
    rw [this]
    simp
  have hlen := upsertLoop_length out1.1 brandId (out1.1, n2) ps out2 h2
  have hfilter : ps.filter (fun p => (lookupRow out1.1 p).isNone) = [] := by
    refine List.filter_eq_nil_iff.mpr ?_
    intro p hp
    suffices hs : (lookupRow out1.1 p).isSome by
      simp only [Option.isNone_iff_eq_none]
      intro habs
      rw [habs] at hs
      exact Bool.false_ne_true hs
    rcases freshRows_fields brandId ps n1 p hp with ⟨r, hrmem, rhandle, rtitle⟩
    have hrmem2 : r ∈ out1.1 := by
      rw [hrows1]; exact hrmem
    rcases hk : product_key p with ⟨kind, k⟩
    cases kind with
    | handle =>
      rcases handle_key_spec p k hk with ⟨hs, hph, hne, hlow⟩
      have hsome : (lookupByHandle out1.1 k).isSome := by
        refine lookupByHandle_isSome _ k r hrmem2 ?_ ?_
        · rw [rowHandleTruthy, rhandle, hph]
          simpa using hne
        · rw [rhandle, hph]
          simpa using hlow
      unfold lookupRow
      rw [hk]
      exact hsome
    | title =>
      have hT : p.title ≠ "" := htitle p hp (by rw [hk])
      have hlow := title_key_spec p k hk
      have hsome : (lookupByTitle out1.1 k).isSome := by
        refine lookupByTitle_isSome _ k r hrmem2 ?_ ?_
        · rw [rtitle]; exact hT
        · rw [rtitle]; exact hlow
      unfold lookupRow
      rw [hk]
      exact hsome
  rw [hlen, hfilter]
  rfl

theorem reconciliation_non_duplication_witness :
    (([applyProduct (applyProduct (blankRow 1 0) prodA) prodA,
       applyProduct (applyProduct (blankRow 1 1) prodB) prodB], 5) :
      List DBProduct × Nat).1.length =
    (([applyProduct (blankRow 1 0) prodA, applyProduct (blankRow 1 1) prodB], 2) :
      List DBProduct × Nat).1.length :=
  reconciliation_non_duplication 1 0 5 [prodA, prodB] (by decide) (by decide)
    ([applyProduct (blankRow 1 0) prodA, applyProduct (blankRow 1 1) prodB], 2)
    ([applyProduct (applyProduct (blankRow 1 0) prodA) prodA,
      applyProduct (applyProduct (blankRow 1 1) prodB) prodB], 5)
    rfl rfl

/-- C10 (counterexample): two incoming products with the same key (both
carry handle "dup") and no matching stored row do not leave the run with
two inserted rows: the second `db.flush()` violates the
`uq_product_brand_handle` constraint on the duplicated non-NULL handle and
the call raises `IntegrityError` instead. -/
theorem duplicate_key_insert_counterexample :
    product_key dupP = product_key dupQ ∧
    lookupRow [] dupP = none ∧
    lookupRow [] dupQ = none ∧
    upsertProducts 1 [] 0 [dupP, dupQ] = Except.error "IntegrityError" :=
  ⟨by decide, rfl, rfl, rfl⟩

/-- C10 (amended): the lookup indexes are built only from rows existing
before the call and never refreshed, so two incoming products with the same
key and no matching stored row never update the same row in one run: each
is inserted separately and the table grows by exactly two — provided the two
fresh rows pass the `uq_product_brand_handle` flushes (NULL or pairwise
distinct non-NULL raw handles); when they duplicate one non-NULL handle the
second flush raises `IntegrityError` instead. -/
theorem duplicate_key_double_insert (brandId n : Nat) (rows0 : List DBProduct)
    (p q : Product) (hkey : product_key p = product_key q)
    (hp : lookupRow rows0 p = none) (hq : lookupRow rows0 q = none)
    (hflush : handleUniqueOk (rows0 ++
      [applyProduct (blankRow brandId n) p, applyProduct (blankRow brandId (n + 1)) q])
      = true) :
    upsertProducts brandId rows0 n [p, q] =
      Except.ok (rows0 ++
        [applyProduct (blankRow brandId n) p, applyProduct (blankRow brandId (n + 1)) q],
        n + 2) ∧
    (rows0 ++
      [applyProduct (blankRow brandId n) p,
       applyProduct (blankRow brandId (n + 1)) q]).length = rows0.length + 2 := by
  have hflush1 : handleUniqueOk (rows0 ++ [applyProduct (blankRow brandId n) p]) = true := by
    refine handleUniqueOk_of_sublist _ _ ?_ hflush
    refine (List.append_sublist_append_left rows0).mpr ?_
    exact List.Sublist.cons₂ _ (List.nil_sublist _)
  have hassoc : (rows0 ++ [applyProduct (blankRow brandId n) p]) ++
      [applyProduct (blankRow brandId (n + 1)) q] =
      rows0 ++ [applyProduct (blankRow brandId n) p,
        applyProduct (blankRow brandId (n + 1)) q] := by
    rw [List.append_assoc]
    rfl
  constructor
  · show upsertLoop rows0 brandId (rows0, n) [p, q] = _
    simp only [upsertLoop, hp, hq, hflush1, if_pos]
    rw [hassoc]
    simp only [hflush, if_pos]
  · simp

theorem duplicate_key_double_insert_witness :
    upsertProducts 1 [] 0 [dupTitleP, dupTitleQ] =
      Except.ok (([] : List DBProduct) ++
        [applyProduct (blankRow 1 0) dupTitleP, applyProduct (blankRow 1 1) dupTitleQ],
        0 + 2) ∧
    (([] : List DBProduct) ++
      [applyProduct (blankRow 1 0) dupTitleP,
       applyProduct (blankRow 1 1) dupTitleQ]).length = ([] : List DBProduct).length + 2 :=
  duplicate_key_double_insert 1 0 [] dupTitleP dupTitleQ (by decide) rfl rfl (by decide)

end ShopifyInsights
